import Mathlib

/-!
Verification of the event-source-library repository against its
specification.  We shallowly embed the two Python 2 sources the claims
are about: `eventsource/client.py` (the SSE client parser) and
`eventsource/listener.py` (the tornado listener).  Python byte strings
are modelled as lists of characters; every definition below mirrors one
Python function or method, keeping the source's names where Lean allows
it (mapping noted in the doc comments otherwise).
-/

namespace EventSourceLib

abbrev Str := List Char

def lit (s : String) : Str := s.data

/-- Python 2 `str` whitespace: space, tab, LF, CR, VT, FF. -/
def pySpace (c : Char) : Bool :=
  c == ' ' || c == '\t' || c == '\n' || c == '\r' ||
    c == Char.ofNat 11 || c == Char.ofNat 12

/-- `s.lstrip()`. -/
def pyLStrip (s : Str) : Str := s.dropWhile pySpace

/-- `s.rstrip()`. -/
def pyRStrip (s : Str) : Str := (s.reverse.dropWhile pySpace).reverse

/-- `s.strip()`. -/
def pyStrip (s : Str) : Str := pyRStrip (pyLStrip s)

/-- `s.endswith("\n")`. -/
def endsWithLF (s : Str) : Bool :=
  match s.getLast? with
  | some c => c == '\n'
  | none => false

/-- Python 2 `s.splitlines()`: splits on `\r\n`, `\r` and `\n`, and does
not produce a final empty part for a trailing terminator. -/
def pySplitlines : Str → List Str
  | [] => []
  | '\r' :: '\n' :: rest => [] :: pySplitlines rest
  | '\r' :: rest => [] :: pySplitlines rest
  | '\n' :: rest => [] :: pySplitlines rest
  | c :: rest =>
    match pySplitlines rest with
    | [] => [[c]]
    | l :: ls => (c :: l) :: ls

/-- `s.split(sep)` for a one-character separator: always `n+1` parts. -/
def pySplitChar (sep : Char) : Str → List Str
  | [] => [[]]
  | c :: rest =>
    if c == sep then [] :: pySplitChar sep rest
    else
      match pySplitChar sep rest with
      | [] => [[c]]
      | l :: ls => (c :: l) :: ls

/-- Joining with a one-character separator (inverse of `pySplitChar`). -/
def joinSep (sep : Char) : List Str → Str
  | [] => []
  | l :: ls => l ++ (if ls.isEmpty then [] else sep :: joinSep sep ls)

/-- `line.split(":", 1)`; `none` models the ValueError Python raises
from unpacking when the line holds no colon. -/
def splitColon1 : Str → Option (Str × Str)
  | [] => none
  | c :: rest =>
    if c == ':' then some ([], rest)
    else
      match splitColon1 rest with
      | none => none
      | some (f, v) => some (c :: f, v)

def decDigitsAux : Str → Nat → Option Nat
  | [], acc => some acc
  | c :: rest, acc =>
    if c.isDigit then decDigitsAux rest (acc * 10 + (c.toNat - 48)) else none

/-- Python 2 `int(s)`: surrounding whitespace allowed, optional sign,
then a non-empty run of decimal digits; `none` models ValueError. -/
def pyInt? (s : Str) : Option Int :=
  match pyStrip s with
  | [] => none
  | '+' :: ds => if ds.isEmpty then none else (decDigitsAux ds 0).map Int.ofNat
  | '-' :: ds =>
    if ds.isEmpty then none else (decDigitsAux ds 0).map (fun n => -(Int.ofNat n))
  | ds => (decDigitsAux ds 0).map Int.ofNat

/-! ## Client model — eventsource/client.py -/

/-- client.py `Event`: `self.name = None; self.data = None; self.id = None`. -/
structure CEvent where
  name : Option Str
  data : Option Str
  id : Option Str
deriving DecidableEq, Repr

/-- The `EventSourceClient` state `handle_stream` touches: `pendingChunk`
models `self.data_partial`, plus `self.last_event_id`,
`self.retry_timeout`, and the list of events handed to `self.cb`, in
call order. -/
structure ClientState where
  pendingChunk : Option Str
  lastEventId : Option Str
  retryTimeout : Int
  delivered : List CEvent
deriving DecidableEq, Repr

/-- `EventSourceClient.__init__` with `retry = 0` (and no delivered
events yet). -/
def clientInit : ClientState :=
  { pendingChunk := none, lastEventId := none, retryTimeout := 0, delivered := [] }

/-- Python truthiness of the `data_partial` slot (`if self.data_partial:`):
`None` and the empty string are both falsy. -/
def strTruthy : Option Str → Bool
  | some s => !s.isEmpty
  | none => false

/-- One iteration of the field loop in `EventSourceClient.handle_stream`.
`none` models an exception escaping the loop body: a line with no colon
(ValueError from tuple unpacking) or an unknown field
(`raise Exception("Unknown field !")`). -/
def handleLine (st : ClientState) (ev : CEvent) (line : Str) :
    Option (ClientState × CEvent) :=
  match splitColon1 line with
  | none => none
  | some (f, value) =>
    let field := pyStrip f
    if field == lit "event" then
      some (st, { ev with name := some (pyLStrip value) })
    else if field == lit "data" then
      let v := pyLStrip value
      match ev.data with
      | none => some (st, { ev with data := some v })
      | some d => some (st, { ev with data := some (d ++ '\n' :: v) })
    else if field == lit "id" then
      let v := pyLStrip value
      some ({ st with lastEventId := some v }, { ev with id := some v })
    else if field == lit "retry" then
      match pyInt? value with
      | some n => some ({ st with retryTimeout := n }, ev)
      | none => some (st, ev)
    else if field == ([] : Str) then
      some (st, ev)
    else none

/-- The `for line in message.strip().splitlines():` loop.  The Bool is
false when an exception escaped; the state then keeps the mutations
made before the offending line, and no event is delivered. -/
def parseLoop (st : ClientState) (ev : CEvent) : List Str → ClientState × CEvent × Bool
  | [] => (st, ev, true)
  | l :: ls =>
    match handleLine st ev l with
    | none => (st, ev, false)
    | some (st2, ev2) => parseLoop st2 ev2 ls

/-- `EventSourceClient.handle_stream`.  The Bool is false when the
Python code raises out of the field loop. -/
def handle_stream (st : ClientState) (message : Str) : ClientState × Bool :=
  if !(endsWithLF message) then
    (if strTruthy st.pendingChunk then
      { st with pendingChunk := some ((st.pendingChunk.getD []) ++ message) }
     else { st with pendingChunk := some message }, true)
  else
    let m := if strTruthy st.pendingChunk then (st.pendingChunk.getD []) ++ message
             else message
    let st1 := if strTruthy st.pendingChunk then { st with pendingChunk := none } else st
    match parseLoop st1 { name := none, data := none, id := none }
        (pySplitlines (pyStrip m)) with
    | (st2, ev, true) =>
      if ev.name.isSome then ({ st2 with delivered := st2.delivered ++ [ev] }, true)
      else (st2, true)
    | (st2, _, false) => (st2, false)

/-- Feeding a list of transport chunks to `handle_stream` in order,
stopping (as tornado's fetch would surface the exception) when a chunk's
processing raised. -/
def feedChunks (st : ClientState) : List Str → ClientState × Bool
  | [] => (st, true)
  | c :: cs =>
    match handle_stream st c with
    | (st2, true) => feedChunks st2 cs
    | (st2, false) => (st2, false)

/-! ## Listener model — eventsource/listener.py -/

/-- The class-level data and methods of an Event class, as consumed by
`EventSourceHandler`: `content_type`, `ACTIONS`, whether `id` is the
`EventId` property (Id variants) or the base class attribute
`id = None`, the success of `set_value` on a raw POST body (JSON
variants run `json_decode`, which can raise ValueError), and
`get_value`, the data-line view of the stored value. -/
structure EventClass where
  contentType : Str
  ACTIONS : List Str
  hasIdProp : Bool
  setValueOk : Str → Bool
  get_value : Str → List Str

/-- `Event.LISTEN`. -/
def LISTEN : Str := lit "poll"

/-- `Event.FINISH`. -/
def FINISH : Str := lit "close"

/-- `Event.RETRY`. -/
def RETRY : Str := lit "retry"

/-- `StringEvent`: `get_value` splits the stored string on `'\n'`. -/
def StringEventClass : EventClass :=
  { contentType := lit "text/plain"
    ACTIONS := [lit "ping", lit "close"]
    hasIdProp := false
    setValueOk := fun _ => true
    get_value := fun raw => pySplitChar '\n' raw }

/-- `StringIdEvent` (adds the retry action and the `EventId` property). -/
def StringIdEventClass : EventClass :=
  { StringEventClass with
    ACTIONS := [lit "ping", lit "retry", lit "close"]
    hasIdProp := true }

/-- `JSONEvent`.  The external json module enters through `dec`, which
models `json_encode ∘ json_decode`: `dec raw = some s` iff `raw` parses
as JSON and `s` is its canonical one-line re-encoding; `dec raw = none`
models the ValueError from `json_decode`. -/
def JSONEventClass (dec : Str → Option Str) : EventClass :=
  { contentType := lit "application/json"
    ACTIONS := [lit "ping", lit "close"]
    hasIdProp := false
    setValueOk := fun raw => (dec raw).isSome
    get_value := fun raw => [(dec raw).getD []] }

/-- `JSONIdEvent`. -/
def JSONIdEventClass (dec : Str → Option Str) : EventClass :=
  { JSONEventClass dec with
    ACTIONS := [lit "ping", lit "retry", lit "close"]
    hasIdProp := true }

/-- A buffered event instance: the constructor stores target, action and
value; `cntAttr` is the instance attribute `self.cnt` that
`EventId.get_id` creates on first access (absent before that, so the
instance lookup falls through to the class counter). -/
structure StoredEvent where
  target : Str
  action : Str
  raw : Str
  cntAttr : Option Nat
deriving DecidableEq, Repr

/-- `self._event_class(target, action, value)`: a fresh instance. -/
def mkEvent (target action raw : Str) : StoredEvent :=
  { target := target, action := action, raw := raw, cntAttr := none }

/-- `EventId.get_id` acting on (instance attribute `self.cnt`, class
attribute `EventId.cnt`): returns the id value and the updated pair.
Before first access the instance lookup yields the class counter, so the
`self.cnt == EventId.cnt` branch fires and pins the value. -/
def get_id : Option Nat → Nat → Nat × Option Nat × Nat
  | none, g => (g, some g, g + 1)
  | some v, g => if v == g then (v, some v, g + 1) else (v, some v, g)

/-- An error or redirect response produced by `send_error` /
`self.redirect`; the `mesg` is the argument `write_error` embeds in the
HTML body ("%(code)d: %(mesg)s"). -/
inductive HResp
  | err (code : Nat) (mesg : Str)
  | redirect (loc : Str)
deriving DecidableEq, Repr

/-- Replacement (`d[k] = v`) on an association list. -/
def aset {α β : Type} [BEq α] (k : α) (v : β) : List (α × β) → List (α × β)
  | [] => [(k, v)]
  | (k2, v2) :: rest => if k2 == k then (k, v) :: rest else (k2, v2) :: aset k v rest

/-- Deletion (`del d[k]`) on an association list with unique keys. -/
def aerase {α β : Type} [BEq α] (k : α) : List (α × β) → List (α × β)
  | [] => []
  | (k2, v2) :: rest => if k2 == k then rest else (k2, v2) :: aerase k rest

/-- The per-request `EventSourceHandler` state the methods touch.
`hid` stands for the identity of the handler object (the key `self`
used in `self._connected`); `out` is the list of strings passed to
`self.write` on the response stream, in order; `resp` records a
`send_error`/`redirect` outcome (`none` = tornado's default 200 once the
method returns); `callbacks` counts `IOLoop.add_callback(self._event_loop)`
registrations. -/
structure HandlerState where
  hid : Nat
  connected : List (Nat × Str)
  events : List (Str × List StoredEvent)
  retryPending : Option Int
  out : List Str
  finished : Bool
  resp : Option HResp
  callbacks : Nat
  target : Option Str
deriving DecidableEq, Repr

/-- `EventSourceHandler.initialize` with `keepalive = 0` (the keepalive
timer is disabled and not modelled).  As in the source, `self._connected`
and `self._events` are created empty here — once per request, because
tornado instantiates a fresh `RequestHandler` (and runs `initialize`)
for every incoming request. -/
def initHandler (hid : Nat) : HandlerState :=
  { hid := hid, connected := [], events := [], retryPending := none,
    out := [], finished := false, resp := none, callbacks := 0, target := none }

/-- `EventSourceHandler.is_connected`: `target in self._connected.values()`. -/
def is_connected (st : HandlerState) (target : Str) : Bool :=
  (st.connected.map Prod.snd).contains target

/-- `EventSourceHandler.set_connected`: registers `self` and creates the
empty deque. -/
def set_connected (st : HandlerState) (target : Str) : HandlerState :=
  { st with connected := aset st.hid target st.connected,
            events := aset target [] st.events }

/-- `EventSourceHandler.set_disconnected`.  The whole body is inside a
`try/except` that logs; a KeyError on `self._connected[self]` leaves
everything unchanged, and a KeyError on `del self._events[target]`
happens before `del self._connected[self]`, which is then skipped. -/
def set_disconnected (st : HandlerState) : HandlerState :=
  match st.connected.lookup st.hid with
  | none => st
  | some tgt =>
    match st.events.lookup tgt with
    | none => st
    | some _ => { st with events := aerase tgt st.events,
                          connected := aerase st.hid st.connected }

/-- `unicode(event.id)`: "None" for the base class attribute `id = None`,
the decimal digits for a generated id. -/
def idRepr : Option Nat → Str
  | none => lit "None"
  | some n => lit (toString n)

/-- `EventSourceHandler.push`, also threading the `EventId.cnt` class
counter `g`.  The first access to `event.id` happens while building the
`log.debug` message; for Id variants that access runs `EventId.get_id`.
`hasattr(event, "id")` is true for every variant — the base class sets
`id = None` — so an `id:` line is always written.  A pending
`self._retry` is written as a `retry:` line and cleared.  Returns the
new counter, the new handler state and the event (whose `self.cnt` may
now be set). -/
def push (ec : EventClass) (g : Nat) (st : HandlerState) (ev : StoredEvent) :
    Nat × HandlerState × StoredEvent :=
  let idTriple :=
    if ec.hasIdProp then
      let r := get_id ev.cntAttr g
      (some r.1, r.2.1, r.2.2)
    else (none, ev.cntAttr, g)
  let ev2 := { ev with cntAttr := idTriple.2.1 }
  let idChunk := lit "id: " ++ idRepr idTriple.1 ++ lit "\r\n"
  let retryChunks : List Str :=
    match st.retryPending with
    | some r => [lit "retry: " ++ lit (toString r) ++ lit "\r\n"]
    | none => []
  let eventChunk := lit "event: " ++ ev.action ++ lit "\r\n"
  let dataChunks := (ec.get_value ev.raw).map (fun l => lit "data: " ++ l ++ lit "\r\n")
  (idTriple.2.2,
   { st with
     out := st.out ++ [idChunk] ++ retryChunks ++ [eventChunk] ++ dataChunks
              ++ [lit "\r\n"],
     retryPending := none },
   ev2)

/-- The exceptions `EventSourceHandler.post` can see from
`buffer_event`: the dict lookup's KeyError (uncaught there) and the
constructor's ValueError. -/
inductive PostErr
  | keyError
  | valueError
deriving DecidableEq, Repr

/-- `EventSourceHandler.buffer_event`:
`self._events[target].append(self._event_class(target, action, value))`.
Python evaluates the dict lookup first (KeyError), then the constructor
(whose `set_value` may raise ValueError), then appends. -/
def buffer_event (ec : EventClass) (st : HandlerState) (target action value : Str) :
    Except PostErr HandlerState :=
  match st.events.lookup target with
  | none => .error .keyError
  | some buf =>
    if ec.setValueOk value then
      .ok { st with events := aset target (buf ++ [mkEvent target action value]) st.events }
    else .error .valueError

/-- `EventSourceHandler.post`.  `resp = none` on return means tornado's
default 200 empty response.  The `Accept` header and the exact
ValueError text interpolated into the 400 body are not modelled.  An
uncaught KeyError would surface as tornado's 500 page. -/
def post (ec : EventClass) (st : HandlerState) (action target body : Str) :
    HandlerState :=
  if !((st.connected.map Prod.snd).contains target) then
    { st with resp := some (.err 404 (lit "Target is not connected")) }
  else if !(ec.ACTIONS.contains action) then
    { st with resp := some (.err 404 (lit "Unknown action requested")) }
  else
    match buffer_event ec st target action body with
    | .ok st2 => { st2 with callbacks := st2.callbacks + 1 }
    | .error .valueError =>
      { st with resp := some (.err 400 (lit "Data is not properly formatted")) }
    | .error .keyError =>
      { st with resp := some (.err 500 (lit "KeyError")) }

/-- The drain of `_event_generator` + the for-body of
`EventSourceHandler._event_loop`.  `self._events[target].pop()` pops
from the RIGHT end of the deque (`buffer_event` appends on the right).
A retry event with a parsable payload sets `self._retry` and continues;
on ValueError the except clause only logs — there is no `continue`, so
the event falls through to the FINISH test and `push`.  `value[0]` is
the head of `get_value`, which is never empty for the shipped variants,
so the subscript is modelled with `headD`.  The fuel starts at the
buffer length, which bounds the number of pops. -/
def drainLoop (ec : EventClass) : Nat → Nat → HandlerState → Str → Nat × HandlerState
  | 0, g, st, _ => (g, st)
  | fuel + 1, g, st, tgt =>
    match st.events.lookup tgt with
    | none => (g, st)
    | some [] => (g, st)
    | some (b :: bs) =>
      let ev := (b :: bs).getLast (List.cons_ne_nil b bs)
      let st1 := { st with events := aset tgt ((b :: bs).dropLast) st.events }
      let step2 : Nat × HandlerState :=
        if ev.action == FINISH then
          let st2 := set_disconnected st1
          (g, { st2 with finished := true })
        else
          let r := push ec g st1 ev
          drainLoop ec fuel r.1 r.2.1 tgt
      if ec.ACTIONS.contains RETRY && ev.action == RETRY then
        match pyInt? ((ec.get_value ev.raw).headD []) with
        | some n => drainLoop ec fuel g { st1 with retryPending := some n } tgt
        | none => step2
      else step2

/-- `EventSourceHandler._event_loop`: guard on
`is_connected(self.target)`, then drain.  `self.target` is only set by
`get`; when the attribute is absent Python raises AttributeError out of
the scheduled callback (tornado logs it, state unchanged), modelled by
returning the state unchanged. -/
def event_loop (ec : EventClass) (g : Nat) (st : HandlerState) : Nat × HandlerState :=
  match st.target with
  | none => (g, st)
  | some tgt =>
    if is_connected st tgt then
      drainLoop ec ((st.events.lookup tgt).getD []).length g st tgt
    else (g, st)

/-- `EventSourceHandler.get` (named `getHandler` here; the
`Content-Type`/`Cache-Control` headers and the keepalive start are not
modelled). -/
def getHandler (ec : EventClass) (st : HandlerState) (action target : Str) :
    HandlerState :=
  if action == LISTEN then
    let st1 := { st with target := some target }
    if is_connected st1 target then
      { st1 with resp := some (.err 423 (lit "Target is already connected")) }
    else set_connected st1 target
  else { st with resp := some (.redirect (lit "/")) }

/-! ### Frame observation helpers

`push` issues one `self.write` per SSE line, so the entries of `out` are
the frame lines (each carrying its CRLF).  The helpers below read the
field value off such a line. -/

/-- The value of a `data:` line chunk (strip the field name and the
trailing CRLF). -/
def chunkDataVal? : Str → Option Str
  | 'd' :: 'a' :: 't' :: 'a' :: ':' :: ' ' :: rest => some rest.dropLast.dropLast
  | _ => none

/-- The value of an `id:` line chunk. -/
def chunkIdVal? : Str → Option Str
  | 'i' :: 'd' :: ':' :: ' ' :: rest => some rest.dropLast.dropLast
  | _ => none

/-- All `data:` line values written on a stream, in order. -/
def dataValues (out : List Str) : List Str := out.filterMap chunkDataVal?

/-- All `id:` line values written on a stream, in order. -/
def idValues (out : List Str) : List Str := out.filterMap chunkIdVal?

/-! ### Scenario states used by the claims -/

/-- The subscription token of the scenarios. -/
def tok : Str := lit "tok1"

/-- A fresh StringEvent subscription: `GET /poll/tok1` on a freshly
initialized handler. -/
def stringStream : HandlerState :=
  getHandler StringEventClass (initHandler 0) LISTEN tok

/-- A fresh StringIdEvent subscription. -/
def idStream : HandlerState :=
  getHandler StringIdEventClass (initHandler 0) LISTEN tok

/-- `stringStream` after `POST /ping/tok1 "one"` then `POST /ping/tok1
"two"`: the buffer holds, in arrival order, events "one", "two". -/
def c1Handler : HandlerState :=
  post StringEventClass
    (post StringEventClass stringStream (lit "ping") tok (lit "one"))
    (lit "ping") tok (lit "two")

/-- `c1Handler` after an additional `POST /close/tok1`: buffer "one",
"two", close in arrival order. -/
def c2Handler : HandlerState :=
  post StringEventClass c1Handler (lit "close") tok []

/-- The frame written for a plain StringEvent `("ping", "hello")`. -/
def c4Frame : List Str :=
  (push StringEventClass 0 stringStream (mkEvent tok (lit "ping") (lit "hello"))).2.1.out

/-- `idStream` after `POST /retry/tok1` with the given body: the buffer
holds one retry event. -/
def c5Handler (raw : Str) : HandlerState :=
  post StringIdEventClass idStream (lit "retry") tok raw

/-- A sequence of `push` calls (the only call sites that read
`event.id`), threading the `EventId.cnt` class counter. -/
def pushAll (ec : EventClass) (g : Nat) (st : HandlerState) :
    List StoredEvent → Nat × HandlerState
  | [] => (g, st)
  | e :: es =>
    let r := push ec g st e
    pushAll ec r.1 r.2.1 es

/-- A `dec` for the JSON variants that rejects every body (any body
that is not valid JSON behaves like this). -/
def jsonNoneDec : Str → Option Str := fun _ => none

/-- A fresh JSONEvent subscription under `jsonNoneDec`. -/
def jsonStream : HandlerState :=
  getHandler (JSONEventClass jsonNoneDec) (initHandler 0) LISTEN tok

/-- The partial-chunk buffer currently pending on the client, as the
byte prefix it contributes to the next flush (empty when the slot is
`None` or the falsy empty string). -/
def pbuf (st : ClientState) : Str :=
  if strTruthy st.pendingChunk then st.pendingChunk.getD [] else []

/-- The (event, no-exception) outcome of parsing one flushed message:
the field loop's effect on the fresh `Event()` does not depend on the
client state, so it is computed from `clientInit`. -/
def flushEv (m : Str) : CEvent × Bool :=
  (parseLoop clientInit { name := none, data := none, id := none }
    (pySplitlines (pyStrip m))).2

/-- The events `handle_stream` delivers to the callback when flushing
message `m` (one or none). -/
def dOf (m : Str) : List CEvent :=
  match flushEv m with
  | (ev, true) => if ev.name.isSome then [ev] else []
  | (_, false) => []

/-! ## Helper lemmas -/

theorem lookup_aset {α β : Type} [BEq α] [LawfulBEq α] (k : α) (v : β)
    (l : List (α × β)) : (aset k v l).lookup k = some v := by
  induction l with
  | nil => simp [aset, List.lookup]
  | cons p rest ih =>
    obtain ⟨k2, v2⟩ := p
    by_cases h : (k2 == k) = true
    · simp [aset, h, List.lookup]
    · have h1 : (k2 == k) = false := by rwa [Bool.not_eq_true] at h
      have h2 : (k == k2) = false := by
        rw [beq_eq_false_iff_ne] at h1 ⊢
        exact fun e => h1 e.symm
      simp [aset, h1, List.lookup, h2, ih]

theorem pySplitChar_ne_nil (sep : Char) (s : Str) : pySplitChar sep s ≠ [] := by
  cases s with
  | nil => simp [pySplitChar]
  | cons c rest =>
    rw [pySplitChar]
    by_cases h : (c == sep) = true
    · simp [h]
    · simp only [h]
      cases pySplitChar sep rest <;> simp

theorem joinSep_pySplitChar (sep : Char) (s : Str) :
    joinSep sep (pySplitChar sep s) = s := by
  induction s with
  | nil => rfl
  | cons c rest ih =>
    rw [pySplitChar]
    by_cases h : (c == sep) = true
    · have hne := pySplitChar_ne_nil sep rest
      have hc : c = sep := by exact beq_iff_eq.mp h
      simp [h, joinSep, List.isEmpty_iff, hne, ih, hc]
    · simp only [h, Bool.false_eq_true, if_false]
      rcases he : pySplitChar sep rest with _ | ⟨l, ls⟩
      · exact absurd he (pySplitChar_ne_nil sep rest)
      · rw [he] at ih
        cases ls with
        | nil => simpa [joinSep] using ih
        | cons l2 ls2 => simpa [joinSep] using ih

theorem dropLast_two (l : Str) : (l ++ ['\r', '\n']).dropLast.dropLast = l := by
  have h1 : l ++ ['\r', '\n'] = (l ++ ['\r']) ++ ['\n'] := by simp
  rw [h1, List.dropLast_concat, List.dropLast_concat]

theorem chunkDataVal_data (l : Str) :
    chunkDataVal? (lit "data: " ++ l ++ lit "\r\n") = some l := by
  show chunkDataVal? ('d' :: 'a' :: 't' :: 'a' :: ':' :: ' ' :: (l ++ ['\r', '\n'])) = some l
  rw [chunkDataVal?]
  rw [dropLast_two]

theorem chunkIdVal_id (l : Str) :
    chunkIdVal? (lit "id: " ++ l ++ lit "\r\n") = some l := by
  show chunkIdVal? ('i' :: 'd' :: ':' :: ' ' :: (l ++ ['\r', '\n'])) = some l
  rw [chunkIdVal?]
  rw [dropLast_two]

theorem chunkIdVal_event (a : Str) :
    chunkIdVal? (lit "event: " ++ a ++ lit "\r\n") = none := rfl

theorem chunkIdVal_data (l : Str) :
    chunkIdVal? (lit "data: " ++ l ++ lit "\r\n") = none := rfl

theorem chunkIdVal_retry (r : Str) :
    chunkIdVal? (lit "retry: " ++ r ++ lit "\r\n") = none := rfl

theorem chunkDataVal_event (a : Str) :
    chunkDataVal? (lit "event: " ++ a ++ lit "\r\n") = none := rfl

/-! ## Claims -/

/-- C1: the spec claims the dispatch loop drains each target's buffer in
POST-arrival (FIFO) order.  The code appends with `deque.append` and
drains with `deque.pop`, both acting on the right end, so a buffer
holding "one" then "two" in arrival order is emitted as "two" then
"one": newest first, not FIFO. -/
theorem c1_dispatch_order_reversed :
    dataValues (event_loop StringEventClass 0 c1Handler).2.out =
      [lit "two", lit "one"] := by decide

/-- C2: the spec claims that a buffer holding e1, e2, close (in arrival
order) is drained by emitting e1 and e2 and then tearing down.  Because
`_event_generator` pops from the right end, the close event is dequeued
FIRST: the loop disconnects and finishes at once, writes no frame at
all, and discards both buffered events. -/
theorem c2_close_dispatched_first :
    (event_loop StringEventClass 0 c2Handler).2.out = [] ∧
    (event_loop StringEventClass 0 c2Handler).2.connected = [] ∧
    (event_loop StringEventClass 0 c2Handler).2.events = [] ∧
    (event_loop StringEventClass 0 c2Handler).2.finished = true := by decide

/-- C3: the spec claims a second `GET /poll/tok1` is answered with HTTP
423 while the first is registered.  `initialize` creates
`self._connected = {}` and `self._events = {}` afresh on every request
(tornado instantiates a handler per request), so the second GET checks
its own empty registry, is accepted (`resp = none`, no 423) and
registers a second connection for the same target. -/
theorem c3_second_get_not_rejected :
    (getHandler StringEventClass (initHandler 0) LISTEN tok).resp = none ∧
    (getHandler StringEventClass (initHandler 1) LISTEN tok).resp = none ∧
    is_connected (getHandler StringEventClass (initHandler 1) LISTEN tok) tok = true ∧
    is_connected (getHandler StringEventClass (initHandler 0) LISTEN tok) tok = true := by
  decide

/-- C4: the spec claims frames of non-id variants carry no `id:` line
and the client delivers `id = None`.  The base class attribute
`id = None` makes `hasattr(event, "id")` true for every event, so
`push` writes `id: None` as the first frame line, and the client parser
delivers the event with `id = "None"` (the string), not `None`. -/
theorem c4_id_line_written_for_plain_event :
    c4Frame = [lit "id: None\r\n", lit "event: ping\r\n", lit "data: hello\r\n",
      lit "\r\n"] ∧
    (feedChunks clientInit [c4Frame.flatten]).1.delivered =
      [{ name := some (lit "ping"), data := some (lit "hello"),
         id := some (lit "None") }] := by decide

/-- C5 counterexample: the claim states that a retry event whose payload
does not parse as an integer is dropped with no frame written and the
pending retry unchanged.  Dispatching the buffered `retry "boom"` event
writes a frame (out is not empty), refuting the conjunction. -/
theorem c5_invalid_retry_not_dropped :
    ¬ ((event_loop StringIdEventClass 0 (c5Handler (lit "boom"))).2.out = [] ∧
       (event_loop StringIdEventClass 0 (c5Handler (lit "boom"))).2.retryPending =
         (c5Handler (lit "boom")).retryPending) := by decide

/-- C5 (amended): on a retry event whose payload does not parse as a
decimal integer, the dispatch loop logs and leaves the pending
retry_override unset — but it does not drop the event: the except
clause has no `continue`, so the loop falls through and writes a normal
frame for it (`id:`, `event: retry`, its payload as `data:` lines), and
the subscription stays open. -/
theorem c5_invalid_retry_falls_through (raw : Str)
    (h : pyInt? ((StringIdEventClass.get_value raw).headD []) = none) :
    (event_loop StringIdEventClass 0 (c5Handler raw)).2.retryPending = none ∧
    (event_loop StringIdEventClass 0 (c5Handler raw)).2.out =
      [lit "id: 0\r\n", lit "event: retry\r\n"] ++
        (StringIdEventClass.get_value raw).map
          (fun l => lit "data: " ++ l ++ lit "\r\n") ++ [lit "\r\n"] ∧
    (event_loop StringIdEventClass 0 (c5Handler raw)).2.finished = false ∧
    is_connected (event_loop StringIdEventClass 0 (c5Handler raw)).2 tok = true := by
  have key : event_loop StringIdEventClass 0 (c5Handler raw) =
      match pyInt? ((StringIdEventClass.get_value raw).headD []) with
      | some n =>
        (0, { hid := 0, connected := [(0, tok)], events := [(tok, [])],
              retryPending := some n, out := [], finished := false, resp := none,
              callbacks := 1, target := some tok })
      | none =>
        (1, { hid := 0, connected := [(0, tok)], events := [(tok, [])],
              retryPending := none,
              out := [lit "id: 0\r\n", lit "event: retry\r\n"] ++
                (StringIdEventClass.get_value raw).map
                  (fun l => lit "data: " ++ l ++ lit "\r\n") ++ [lit "\r\n"],
              finished := false, resp := none, callbacks := 1,
              target := some tok }) := by with_unfolding_all rfl
  rw [key, h]
  exact ⟨rfl, rfl, rfl, rfl⟩

/-- C5 witness: the amended C5 theorem applied to the payload "boom". -/
theorem c5_invalid_retry_falls_through_witness :
    pyInt? ((StringIdEventClass.get_value (lit "boom")).headD []) = none ∧
    (event_loop StringIdEventClass 0 (c5Handler (lit "boom"))).2.retryPending = none :=
  ⟨by decide, (c5_invalid_retry_falls_through (lit "boom") (by decide)).1⟩

theorem filterMap_none_of {α β : Type} (f : α → Option β) (l : List α)
    (h : ∀ x ∈ l, f x = none) : l.filterMap f = [] := by
  induction l with
  | nil => rfl
  | cons x xs ih =>
    simp [List.filterMap_cons, h x (by simp),
      ih (fun y hy => h y (by simp [hy]))]

theorem idValues_append_frame (o : List Str) (idv a : Str) (rm dm : List Str)
    (hrm : ∀ c ∈ rm, chunkIdVal? c = none)
    (hdm : ∀ c ∈ dm, chunkIdVal? c = none) :
    idValues (o ++ [lit "id: " ++ idv ++ lit "\r\n"] ++ rm ++
      [lit "event: " ++ a ++ lit "\r\n"] ++ dm ++ [lit "\r\n"]) =
      idValues o ++ [idv] := by
  have hidv : List.filterMap chunkIdVal? [lit "id: " ++ idv ++ lit "\r\n"] = [idv] := by
    rw [List.filterMap_cons, chunkIdVal_id]
    rfl
  have hev : List.filterMap chunkIdVal? [lit "event: " ++ a ++ lit "\r\n"] = [] := by
    rw [List.filterMap_cons, chunkIdVal_event]
    rfl
  have hcr : List.filterMap chunkIdVal? [lit "\r\n"] = ([] : List Str) := rfl
  unfold idValues
  rw [List.filterMap_append, List.filterMap_append, List.filterMap_append,
    List.filterMap_append, List.filterMap_append,
    filterMap_none_of _ rm hrm, filterMap_none_of _ dm hdm, hidv, hev, hcr]
  simp

/-- `push` on an id-enabled variant and a fresh event instance: the
first id access pins the class counter value `g`, the counter advances
to `g + 1`, and the frame starts with `id: g`. -/
theorem push_id_out (g : Nat) (st : HandlerState) (t a r : Str) :
    push StringIdEventClass g st (mkEvent t a r) =
      (g + 1,
       { st with
         out := st.out ++ [lit "id: " ++ lit (toString g) ++ lit "\r\n"] ++
           (match st.retryPending with
            | some rv => [lit "retry: " ++ lit (toString rv) ++ lit "\r\n"]
            | none => []) ++ [lit "event: " ++ a ++ lit "\r\n"] ++
           (pySplitChar '\n' r).map (fun l => lit "data: " ++ l ++ lit "\r\n") ++
           [lit "\r\n"],
         retryPending := none },
       { mkEvent t a r with cntAttr := some g }) := by
  with_unfolding_all rfl

theorem pushAll_idValues (evs : List (Str × Str)) : ∀ (g : Nat) (st : HandlerState),
    idValues (pushAll StringIdEventClass g st
      (evs.map (fun p => mkEvent tok p.1 p.2))).2.out =
      idValues st.out ++ (List.range' g evs.length).map (fun n => lit (toString n)) := by
  induction evs with
  | nil => intro g st; simp [pushAll, List.range']
  | cons e es ih =>
    intro g st
    obtain ⟨a, r⟩ := e
    simp only [List.map_cons, pushAll, push_id_out]
    rw [ih]
    have hdm : ∀ c ∈ (pySplitChar '\n' r).map
        (fun l => lit "data: " ++ l ++ lit "\r\n"), chunkIdVal? c = none := by
      intro c hc
      obtain ⟨l, _, hl⟩ := List.mem_map.mp hc
      rw [← hl]
      exact chunkIdVal_data l
    cases hrp : st.retryPending with
    | none =>
      simp only [hrp]
      rw [idValues_append_frame st.out (lit (toString g)) a [] _
        (by intro c hc; simp at hc) hdm]
      have hr : List.range' g (es.length + 1) = g :: List.range' (g + 1) es.length := rfl
      simp [hr, List.append_assoc]
    | some rv =>
      simp only [hrp]
      rw [idValues_append_frame st.out (lit (toString g)) a
        [lit "retry: " ++ lit (toString rv) ++ lit "\r\n"] _
        (by intro c hc
            simp at hc
            rw [hc]
            exact chunkIdVal_retry (lit (toString rv))) hdm]
      have hr : List.range' g (es.length + 1) = g :: List.range' (g + 1) es.length := rfl
      simp [hr, List.append_assoc]

/-- C7: the sequence of id values written in `id:` lines by the
id-enabled variant across the process lifetime (the counter starts at
`EventId.cnt = 0` and `push` is the only id consumer) is `0, 1, 2, ...`:
strictly increasing with step exactly 1 and no gaps. -/
theorem c7_ids_consecutive (pairs : List (Str × Str)) :
    idValues (pushAll StringIdEventClass 0 idStream
      (pairs.map (fun p => mkEvent tok p.1 p.2))).2.out =
      (List.range pairs.length).map (fun n => lit (toString n)) := by
  rw [pushAll_idValues]
  have h0 : idValues idStream.out = [] := rfl
  rw [h0, List.range_eq_range']
  simp

/-- C8: `post` checks, in this order: 404 "Target is not connected"
when the target is not in the handler's registry; else 404 "Unknown
action requested" when the action is outside the variant's ACTIONS;
else 400 when the variant's `set_value` rejects the body; else the
event is appended to the target's buffer, a dispatch callback is
scheduled, and tornado's default 200 empty response goes out
(`resp = none`). -/
theorem c8_post_precedence (ec : EventClass) (st : HandlerState)
    (action target body : Str) (buf : List StoredEvent)
    (hbuf : st.events.lookup target = some buf) (hresp : st.resp = none) :
    ((st.connected.map Prod.snd).contains target = false →
      post ec st action target body =
        { st with resp := some (.err 404 (lit "Target is not connected")) }) ∧
    ((st.connected.map Prod.snd).contains target = true →
      ec.ACTIONS.contains action = false →
      post ec st action target body =
        { st with resp := some (.err 404 (lit "Unknown action requested")) }) ∧
    ((st.connected.map Prod.snd).contains target = true →
      ec.ACTIONS.contains action = true → ec.setValueOk body = false →
      post ec st action target body =
        { st with resp := some (.err 400 (lit "Data is not properly formatted")) }) ∧
    ((st.connected.map Prod.snd).contains target = true →
      ec.ACTIONS.contains action = true → ec.setValueOk body = true →
      (post ec st action target body).resp = none ∧
      (post ec st action target body).events.lookup target =
        some (buf ++ [mkEvent target action body]) ∧
      (post ec st action target body).callbacks = st.callbacks + 1) := by
  refine ⟨fun h1 => ?_, fun h1 h2 => ?_, fun h1 h2 h3 => ?_, fun h1 h2 h3 => ?_⟩
  · unfold post
    rw [h1]
    rfl
  · unfold post
    rw [h1, h2]
    rfl
  · unfold post buffer_event
    rw [h1, h2, hbuf, h3]
    rfl
  · unfold post buffer_event
    rw [h1, h2, hbuf, h3]
    exact ⟨hresp,
      lookup_aset target (buf ++ [mkEvent target action body]) st.events, rfl⟩

/-- C8 witness: the precedence theorem applied to a concrete connected
stream and the disallowed action "retry". -/
theorem c8_post_precedence_witness :
    stringStream.events.lookup tok = some [] ∧ stringStream.resp = none ∧
    ((stringStream.connected.map Prod.snd).contains tok = true →
      StringEventClass.ACTIONS.contains (lit "retry") = false →
      post StringEventClass stringStream (lit "retry") tok (lit "x") =
        { stringStream with
          resp := some (.err 404 (lit "Unknown action requested")) }) :=
  ⟨rfl, rfl,
    (c8_post_precedence StringEventClass stringStream (lit "retry") tok (lit "x")
      [] rfl rfl).2.1⟩

/-- C9: for a StringEvent payload, the values of the `data:` lines of
the emitted frame, joined with `'\n'` in order, give back exactly the
payload: `get_value` splits on `'\n'`, `push` writes one `data:` line
per part in order, and joining inverts the split. -/
theorem c9_string_roundtrip (p act : Str) (_hp : '\r' ∉ p) :
    joinSep '\n' (dataValues
      (push StringEventClass 0 stringStream (mkEvent tok act p)).2.1.out) = p := by
  have e1 : (push StringEventClass 0 stringStream (mkEvent tok act p)).2.1.out =
      [lit "id: None\r\n"] ++ [lit "event: " ++ act ++ lit "\r\n"] ++
        (pySplitChar '\n' p).map (fun l => lit "data: " ++ l ++ lit "\r\n") ++
        [lit "\r\n"] := by with_unfolding_all rfl
  rw [e1]
  have hdata : ∀ parts : List Str, List.filterMap chunkDataVal?
      (parts.map (fun l => lit "data: " ++ l ++ lit "\r\n")) = parts := by
    intro parts
    induction parts with
    | nil => rfl
    | cons l ls ih => rw [List.map_cons, List.filterMap_cons, chunkDataVal_data, ih]
  have hid : List.filterMap chunkDataVal? [lit "id: None\r\n"] = [] := rfl
  have hev : List.filterMap chunkDataVal? [lit "event: " ++ act ++ lit "\r\n"] = [] := by
    rw [List.filterMap_cons, chunkDataVal_event]
    rfl
  have hcr : List.filterMap chunkDataVal? [lit "\r\n"] = ([] : List Str) := rfl
  unfold dataValues
  rw [List.filterMap_append, List.filterMap_append, List.filterMap_append,
    hid, hev, hdata, hcr]
  simp only [List.nil_append, List.append_nil]
  exact joinSep_pySplitChar '\n' p

/-- C9 witness: the round-trip theorem applied to the two-line payload
"hello\nworld". -/
theorem c9_string_roundtrip_witness :
    '\r' ∉ lit "hello\nworld" ∧
    joinSep '\n' (dataValues (push StringEventClass 0 stringStream
      (mkEvent tok (lit "ping") (lit "hello\nworld"))).2.1.out) =
      lit "hello\nworld" :=
  ⟨by decide, c9_string_roundtrip (lit "hello\nworld") (lit "ping") (by decide)⟩

/-- C10: a POST whose body the JSON variant rejects leaves the handler
state unchanged except for the 400 response: the ValueError is raised
by the constructor inside `buffer_event` before `append` runs, so no
event is enqueued and no dispatch callback is scheduled. -/
theorem c10_invalid_payload_atomic (dec : Str → Option Str) (st : HandlerState)
    (target body : Str)
    (hconn : (st.connected.map Prod.snd).contains target = true)
    (hkey : (st.events.lookup target).isSome = true)
    (hdec : dec body = none) :
    post (JSONEventClass dec) st (lit "ping") target body =
      { st with resp := some (.err 400 (lit "Data is not properly formatted")) } := by
  obtain ⟨buf, hbuf⟩ := Option.isSome_iff_exists.mp hkey
  have hact : (JSONEventClass dec).ACTIONS.contains (lit "ping") = true := rfl
  have hsv : (JSONEventClass dec).setValueOk body = false := by
    show (dec body).isSome = false
    rw [hdec]
    rfl
  unfold post buffer_event
  rw [hconn, hact, hbuf, hsv]
  rfl

/-- C10 witness: the atomicity theorem applied to a connected JSON
stream and a rejected body. -/
theorem c10_invalid_payload_atomic_witness :
    (jsonStream.connected.map Prod.snd).contains tok = true ∧
    post (JSONEventClass jsonNoneDec) jsonStream (lit "ping") tok (lit "bad") =
      { jsonStream with
        resp := some (.err 400 (lit "Data is not properly formatted")) } :=
  ⟨by decide,
    c10_invalid_payload_atomic jsonNoneDec jsonStream tok (lit "bad")
      (by decide) (by decide) rfl⟩

/-! ### Chunk-boundary analysis of the client parser (C6) -/

theorem handleLine_delivered (st : ClientState) (ev : CEvent) (l : Str)
    (st2 : ClientState) (ev2 : CEvent) (h : handleLine st ev l = some (st2, ev2)) :
    st2.delivered = st.delivered := by
  unfold handleLine at h
  split at h
  · exact absurd h (by simp)
  · dsimp only at h
    split_ifs at h <;>
      first
        | (injection h with h'
           injection h' with ha hb
           rw [← ha])
        | (split at h <;>
            (injection h with h'
             injection h' with ha hb
             rw [← ha]))
        | simp at h

theorem handleLine_snd_eq (st st' : ClientState) (ev : CEvent) (l : Str) :
    (handleLine st ev l).map Prod.snd = (handleLine st' ev l).map Prod.snd := by
  unfold handleLine
  rcases hc : splitColon1 l with _ | ⟨f, v⟩
  · rfl
  · simp only
    split_ifs <;> first
      | rfl
      | (cases ev.data <;> rfl)
      | (cases pyInt? v <;> rfl)

theorem parseLoop_delivered (ls : List Str) : ∀ (st : ClientState) (ev : CEvent),
    (parseLoop st ev ls).1.delivered = st.delivered := by
  induction ls with
  | nil => intro st ev; rfl
  | cons l ls ih =>
    intro st ev
    unfold parseLoop
    rcases h : handleLine st ev l with _ | ⟨st2, ev2⟩
    · simp only [h]
    · simp only [h]
      rw [ih st2 ev2, handleLine_delivered st ev l st2 ev2 h]

theorem parseLoop_snd_eq (ls : List Str) :
    ∀ (st st' : ClientState) (ev : CEvent),
    (parseLoop st ev ls).2 = (parseLoop st' ev ls).2 := by
  induction ls with
  | nil => intro st st' ev; rfl
  | cons l ls ih =>
    intro st st' ev
    have hmap := handleLine_snd_eq st st' ev l
    unfold parseLoop
    rcases h : handleLine st ev l with _ | ⟨st2, ev2⟩ <;>
      rcases h' : handleLine st' ev l with _ | ⟨st2', ev2'⟩
    · simp only [h, h']
    · rw [h, h'] at hmap
      simp at hmap
    · rw [h, h'] at hmap
      simp at hmap
    · rw [h, h'] at hmap
      simp only [Option.map_some', Option.some.injEq] at hmap
      simp only [h, h']
      rw [show ev2 = ev2' from hmap]
      exact ih st2 st2' ev2'

/-- A parse flush appends `dOf m` to whatever `delivered` the pre-parse
state carries (the parsed event and success flag do not depend on the
state, the state's `delivered` is untouched by the field loop). -/
theorem flush_match_delivered (st st1 : ClientState) (m : Str)
    (hd : st1.delivered = st.delivered) :
    (match parseLoop st1 { name := none, data := none, id := none }
        (pySplitlines (pyStrip m)) with
      | (st2, ev, true) =>
        if ev.name.isSome then
          ({ st2 with delivered := st2.delivered ++ [ev] }, true)
        else (st2, true)
      | (st2, _, false) => (st2, false)).1.delivered = st.delivered ++ dOf m := by
  have hsnd : (parseLoop st1 { name := none, data := none, id := none }
      (pySplitlines (pyStrip m))).2 = flushEv m :=
    parseLoop_snd_eq _ st1 clientInit _
  have hfst : (parseLoop st1 { name := none, data := none, id := none }
      (pySplitlines (pyStrip m))).1.delivered = st.delivered := by
    rw [parseLoop_delivered]
    exact hd
  rcases hp : parseLoop st1 { name := none, data := none, id := none }
      (pySplitlines (pyStrip m)) with ⟨st2, evok⟩
  rcases evok with ⟨ev, ok⟩
  rw [hp] at hsnd hfst
  have hsnd2 : (ev, ok) = flushEv m := hsnd
  have hfst2 : st2.delivered = st.delivered := hfst
  unfold dOf
  rw [← hsnd2]
  cases ok
  · simpa using hfst2
  · by_cases hn : ev.name.isSome = true <;> simp [hn, hfst2]

/-- `handle_stream` on a chunk that does not end in `\n` only grows the
partial buffer. -/
theorem handle_stream_accum (st : ClientState) (c : Str)
    (h : endsWithLF c = false) :
    handle_stream st c = ({ st with pendingChunk := some (pbuf st ++ c) }, true) := by
  unfold handle_stream
  rw [h]
  by_cases ht : strTruthy st.pendingChunk = true <;> simp [ht, pbuf]

/-- `handle_stream` on a chunk ending in `\n`, when a truthy partial is
pending: the partial is prepended and cleared, then the flush runs. -/
theorem handle_stream_flush_true (st : ClientState) (c : Str)
    (h : endsWithLF c = true) (ht : strTruthy st.pendingChunk = true) :
    handle_stream st c =
      (match parseLoop { st with pendingChunk := none }
          { name := none, data := none, id := none }
          (pySplitlines (pyStrip (st.pendingChunk.getD [] ++ c))) with
        | (st2, ev, true) =>
          if ev.name.isSome then
            ({ st2 with delivered := st2.delivered ++ [ev] }, true)
          else (st2, true)
        | (st2, _, false) => (st2, false)) := by
  unfold handle_stream
  rw [h, ht]
  with_unfolding_all rfl

/-- `handle_stream` on a chunk ending in `\n` with no (or a falsy empty)
partial pending: the chunk alone is flushed and the partial slot is left
as it was. -/
theorem handle_stream_flush_false (st : ClientState) (c : Str)
    (h : endsWithLF c = true) (ht : strTruthy st.pendingChunk = false) :
    handle_stream st c =
      (match parseLoop st { name := none, data := none, id := none }
          (pySplitlines (pyStrip c)) with
        | (st2, ev, true) =>
          if ev.name.isSome then
            ({ st2 with delivered := st2.delivered ++ [ev] }, true)
          else (st2, true)
        | (st2, _, false) => (st2, false)) := by
  unfold handle_stream
  rw [h, ht]
  with_unfolding_all rfl

/-- Flushing chunk `c` delivers exactly the events of the reassembled
message `pbuf st ++ c`. -/
theorem handle_stream_flush (st : ClientState) (c : Str)
    (h : endsWithLF c = true) :
    (handle_stream st c).1.delivered = st.delivered ++ dOf (pbuf st ++ c) := by
  by_cases ht : strTruthy st.pendingChunk = true
  · rw [handle_stream_flush_true st c h ht,
      show pbuf st ++ c = st.pendingChunk.getD [] ++ c from by simp [pbuf, ht]]
    exact flush_match_delivered st { st with pendingChunk := none } _ rfl
  · rw [handle_stream_flush_false st c h (by simpa using ht),
      show pbuf st ++ c = c from by simp [pbuf, ht]]
    exact flush_match_delivered st st _ rfl

theorem pbuf_set (st : ClientState) (x : Str) :
    pbuf { st with pendingChunk := some x } = x := by
  cases x <;> simp [pbuf, strTruthy]

theorem endsWithLF_append (a b : Str) :
    endsWithLF (a ++ b) = if b.isEmpty then endsWithLF a else endsWithLF b := by
  cases hb : b with
  | nil => simp
  | cons x xs =>
    unfold endsWithLF
    rw [List.getLast?_append_of_ne_nil a (by simp)]
    simp

/-- The master chunk-feeding lemma: when no chunk except possibly the
last ends in `\n`, all internal chunks merely accumulate, so the events
delivered over the whole feed are those of the flush of the
concatenation (delivered only when the concatenation ends in `\n`). -/
theorem feedChunks_delivered (cs : List Str) : ∀ st : ClientState,
    (∀ c ∈ cs.dropLast, endsWithLF c = false) →
    (feedChunks st cs).1.delivered =
      st.delivered ++
        (if endsWithLF cs.flatten then dOf (pbuf st ++ cs.flatten) else []) := by
  induction cs with
  | nil =>
    intro st _
    simp [feedChunks, endsWithLF]
  | cons c cs ih =>
    intro st hint
    cases cs with
    | nil =>
      have hfc : (feedChunks st [c]).1 = (handle_stream st c).1 := by
        unfold feedChunks
        rcases h2 : handle_stream st c with ⟨st2, ok⟩
        cases ok <;> rfl
      rw [hfc]
      simp only [List.flatten_cons, List.flatten_nil, List.append_nil]
      cases hLF : endsWithLF c with
      | false =>
        rw [handle_stream_accum st c hLF]
        simp
      | true =>
        rw [handle_stream_flush st c hLF]
        simp
    | cons d ds =>
      have hc : endsWithLF c = false := hint c (List.mem_cons_self c _)
      have hstep : feedChunks st (c :: d :: ds) =
          feedChunks { st with pendingChunk := some (pbuf st ++ c) } (d :: ds) := by
        unfold feedChunks
        rw [handle_stream_accum st c hc]
        rfl
      rw [hstep,
        ih { st with pendingChunk := some (pbuf st ++ c) }
          (fun x hx => hint x (List.mem_cons_of_mem c hx)),
        pbuf_set]
      rw [show (c :: d :: ds : List Str).flatten = c ++ (d :: ds).flatten from rfl]
      rw [endsWithLF_append c (List.flatten (d :: ds))]
      cases hni : (List.flatten (d :: ds)).isEmpty with
      | true =>
        rw [List.isEmpty_iff.mp hni]
        have h0 : endsWithLF ([] : Str) = false := rfl
        simp [hc, h0]
      | false =>
        simp [hni, List.append_assoc]

/-- C6 counterexample: the claim quantifies over every split of a byte
sequence, but splitting `event: ping\r\ndata: hi\r\n\r\n` right after
its first `\n` makes `handle_stream` flush the first line alone
(delivering an event with `data = None`), while the unsplit feed
delivers the event with `data = "hi"`. -/
theorem c6_chunk_split_counterexample :
    (feedChunks clientInit [lit "event: ping\r\ndata: hi\r\n\r\n"]).1.delivered ≠
    (feedChunks clientInit
      [lit "event: ping\r\n", lit "data: hi\r\n\r\n"]).1.delivered := by
  decide

/-- C6 (amended): the client parser is invariant under chunk boundary
shifts as long as no chunk before the last one ends in `\n` (the parser
flushes on any chunk ending in `\n`, so only such boundaries are
transparent): any two such splittings of the same byte sequence deliver
the identical event sequence from the same starting state. -/
theorem c6_chunk_invariance (st : ClientState) (cs1 cs2 : List Str)
    (h1 : ∀ c ∈ cs1.dropLast, endsWithLF c = false)
    (h2 : ∀ c ∈ cs2.dropLast, endsWithLF c = false)
    (hj : cs1.flatten = cs2.flatten) :
    (feedChunks st cs1).1.delivered = (feedChunks st cs2).1.delivered := by
  rw [feedChunks_delivered cs1 st h1, feedChunks_delivered cs2 st h2, hj]

/-- C6 witness: the amended invariance applied to the spec's frame split
after byte 12 (inside the CRLF, a boundary not following a `\n`) versus
fed whole. -/
theorem c6_chunk_invariance_witness :
    (feedChunks clientInit
      [lit "event: ping\r", lit "\ndata: hi\r\n\r\n"]).1.delivered =
    (feedChunks clientInit [lit "event: ping\r\ndata: hi\r\n\r\n"]).1.delivered :=
  c6_chunk_invariance clientInit _ _ (by decide) (by decide) (by decide)

end EventSourceLib
